import Mathlib

/-!
Verification of the anomaly-classification engine of StingRayCatcher
(`main.py`): the `CellSite` record, `normalize_operator`, and the two-pass
`classify_sites` (per-record heuristics followed by the grid-bucket density
heuristic).  Python floats are modelled as exact rationals, Python ints as
`Int`, optional fields as `Option`, and the mutable in-place annotation as a
function from the batch to the annotated batch.  Operations that can raise in
Python on an absent (`None`) field — `list.append`, the `in` membership test —
are additionally modelled in an `Except`-valued variant used to state that
classification never raises.
-/

/-- `CellSite` mirrors the Python dataclass, field for field, including the
dataclass defaults (`None` everywhere, `suspected_simulator=False`,
`reasons=None`). -/
structure CellSite where
  lat : ℚ
  lon : ℚ
  operator : Option String := none
  mcc : Option Int := none
  mnc : Option Int := none
  lac : Option Int := none
  tac : Option Int := none
  cid : Option Int := none
  pci : Option Int := none
  arfcn : Option Int := none
  band : Option String := none
  rsrp : Option ℚ := none
  rsrq : Option ℚ := none
  rssi : Option ℚ := none
  timestamp : Option String := none
  suspected_simulator : Bool := false
  reasons : Option (List String) := none
deriving DecidableEq

/-- Placeholder record used with `List.getD`; every access through it is
guarded by an in-range index. -/
def site0 : CellSite := { lat := 0, lon := 0 }

instance : Inhabited CellSite := ⟨site0⟩

/-- The fixed `US_OPERATOR_BY_MCC_MNC` registry, as the association list of its
seven `(mcc, mnc) → operator` entries (the Python dict has distinct keys, so
first-match lookup agrees with `dict.get`). -/
def US_OPERATOR_BY_MCC_MNC : List ((Int × Int) × String) :=
  [((310, 410), "AT&T"),
   ((310, 150), "AT&T"),
   ((310, 260), "T-Mobile"),
   ((310, 160), "T-Mobile"),
   ((311, 480), "Verizon"),
   ((311, 490), "Verizon"),
   ((311, 870), "US Cellular")]

/-- `US_OPERATOR_BY_MCC_MNC.get((mcc, mnc))`. -/
def registryGet (c n : Int) : Option String :=
  US_OPERATOR_BY_MCC_MNC.lookup (c, n)

/-- Python truthiness of an optional string: `None` and `""` are falsy. -/
def truthyStr : Option String → Bool
  | none => false
  | some s => s != ""

/-- Lowercase every character of a list. -/
def lowerChars : List Char → List Char
  | [] => []
  | c :: l => Char.toLower c :: lowerChars l

/-- `str.lower`, modelled per character (the operator names involved are
ASCII). -/
def strLower (s : String) : String := ⟨lowerChars s.data⟩

/-- `v is not None and v > t` for an optional float `v`. -/
def pyGtOpt (v : Option ℚ) (t : ℚ) : Bool :=
  match v with
  | none => false
  | some r => decide (t < r)

/-- `v is not None and v <= 1` for an optional int `v`. -/
def pyLe1Opt : Option Int → Bool
  | none => false
  | some v => decide (v ≤ 1)

/-- Python `int(q * 200)` for an exact rational `q`: scaling by the fixed
factor 200 and truncating toward zero, computed on the exact representation
(`q * 200 = (q.num * 200) / q.den` with a positive denominator, so truncating
its value toward zero is `Int.tdiv` of that numerator and denominator). -/
def pyTruncScale200 (q : ℚ) : Int := Int.tdiv (q.num * 200) q.den

/- Reason strings, verbatim from the source. -/

def missingR : String := "Missing operator and MCC/MNC"
def strongR : String := "Unusually strong signal strength"
def lowR : String := "Low TAC/LAC/CID values"
def denseR : String := "Dense cluster with strong power"

/-- The f-string `"MCC/MNC ({mcc}-{mnc}) mismatch: expected {mapped}"`. -/
def mismatchR (c n : Int) (expected : String) : String :=
  "MCC/MNC (" ++ toString c ++ "-" ++ toString n ++ ") mismatch: expected " ++ expected

/-- `normalize_operator`: if the operator label is falsy and MCC and MNC are
both present, assign the registry lookup result (possibly `None`) to the
operator field. -/
def normalize_operator (s : CellSite) : CellSite :=
  match s.mcc, s.mnc with
  | some c, some n =>
      if truthyStr s.operator = false then { s with operator := registryGet c n } else s
  | _, _ => s

/-- One iteration of the first loop of `classify_sites`:
`normalize_operator(s); s.reasons = s.reasons or []`. -/
def normStage (s : CellSite) : CellSite :=
  let s1 := normalize_operator s
  { s1 with reasons := some (s1.reasons.getD []) }

/-- `not s.operator and (s.mcc is None or s.mnc is None)`. -/
def fire1 (s : CellSite) : Prop :=
  truthyStr s.operator = false ∧ (s.mcc = none ∨ s.mnc = none)

instance (s : CellSite) : Decidable (fire1 s) := by unfold fire1; infer_instance

/-- Heuristic: missing operator and MCC/MNC unknown (no duplicate check in the
source). -/
def heur1 (s : CellSite) : CellSite :=
  if fire1 s then
    { s with suspected_simulator := true, reasons := some (s.reasons.getD [] ++ [missingR]) }
  else s

/-- Heuristic: operator mismatch vs the MCC/MNC registry (no duplicate check in
the source).  The `.lower()` calls sit behind the truthiness guards, exactly as
the Python short-circuit evaluates them. -/
def heur2 (s : CellSite) : CellSite :=
  match s.mcc, s.mnc with
  | some c, some n =>
      match registryGet c n with
      | some m =>
          if m ≠ "" ∧ truthyStr s.operator = true ∧ strLower m ≠ strLower (s.operator.getD "") then
            { s with suspected_simulator := true,
                     reasons := some (s.reasons.getD [] ++ [mismatchR c n m]) }
          else s
      | none => s
  | _, _ => s

/-- The (zero- or one-element) list of reason strings the mismatch heuristic
appends to a record. -/
def mismatchApp (s : CellSite) : List String :=
  match s.mcc, s.mnc with
  | some c, some n =>
      match registryGet c n with
      | some m =>
          if m ≠ "" ∧ truthyStr s.operator = true ∧ strLower m ≠ strLower (s.operator.getD "") then
            [mismatchR c n m]
          else []
      | none => []
  | _, _ => []

/-- `(s.rsrp is not None and s.rsrp > -65) or (s.rssi is not None and s.rssi > -50)`. -/
def strongCond (s : CellSite) : Bool :=
  pyGtOpt s.rsrp (-65) || pyGtOpt s.rssi (-50)

/-- The strong-signal heuristic fires: condition holds and no duplicate. -/
def fire3 (s : CellSite) : Prop :=
  strongCond s = true ∧ strongR ∉ s.reasons.getD []

instance (s : CellSite) : Decidable (fire3 s) := by unfold fire3; infer_instance

/-- Heuristic: abnormally strong signal (with duplicate check). -/
def heur3 (s : CellSite) : CellSite :=
  if fire3 s then
    { s with suspected_simulator := true, reasons := some (s.reasons.getD [] ++ [strongR]) }
  else s

/-- `(s.tac is not None and s.tac <= 1) or (s.lac ...) or (s.cid ...)`. -/
def lowCond (s : CellSite) : Bool :=
  pyLe1Opt s.tac || pyLe1Opt s.lac || pyLe1Opt s.cid

/-- The low-codes heuristic fires: condition holds and no duplicate. -/
def fire4 (s : CellSite) : Prop :=
  lowCond s = true ∧ lowR ∉ s.reasons.getD []

instance (s : CellSite) : Decidable (fire4 s) := by unfold fire4; infer_instance

/-- Heuristic: low TAC/LAC/CID codes (with duplicate check; the flag is set
inside the duplicate check, as in the source). -/
def heur4 (s : CellSite) : CellSite :=
  if fire4 s then
    { s with suspected_simulator := true, reasons := some (s.reasons.getD [] ++ [lowR]) }
  else s

/-- The per-record heuristics of the second loop, in source order. -/
def heurStage (s : CellSite) : CellSite := heur4 (heur3 (heur2 (heur1 s)))

/-- The batch after the two per-record loops of `classify_sites`. -/
def classify_pass1 (sites : List CellSite) : List CellSite :=
  (sites.map normStage).map heurStage

/-- The density-pass sort key `x.rsrp or -200`: Python `or` also replaces a
*zero* (falsy) RSRP by `-200`. -/
def sortVal (s : CellSite) : ℚ :=
  match s.rsrp with
  | none => -200
  | some r => if r = 0 then -200 else r

/-- The grid key `(int(lat * 200), int(lon * 200))`. -/
def bucketKey (s : CellSite) : Int × Int := (pyTruncScale200 s.lat, pyTruncScale200 s.lon)

/-- The grid keys of a batch, by index. -/
def keyList (sites : List CellSite) : List (Int × Int) := sites.map bucketKey

/-- The density sort keys of a batch, by index. -/
def valList (sites : List CellSite) : List ℚ := sites.map sortVal

/-- `grid[k]`: the indices whose records fall in bucket `k`, in batch order. -/
def bucketOfK (keys : List (Int × Int)) (k : Int × Int) : List Nat :=
  (List.range keys.length).filter (fun i => decide (keys.getD i (0, 0) = k))

/-- The order in which Python's stable `list.sort(key=..., reverse=True)` lays
out the (distinct) indices of one bucket: larger sort key first, ties by batch
order. -/
def densLEK (vals : List ℚ) (i j : Nat) : Prop :=
  vals.getD j 0 < vals.getD i 0 ∨ (vals.getD i 0 = vals.getD j 0 ∧ i ≤ j)

instance (vals : List ℚ) : DecidableRel (densLEK vals) := fun i j => by
  unfold densLEK; infer_instance

instance (vals : List ℚ) : IsTotal Nat (densLEK vals) where
  total i j := by
    unfold densLEK
    rcases lt_trichotomy (vals.getD i 0) (vals.getD j 0) with h | h | h
    · exact Or.inr (Or.inl h)
    · rcases Nat.le_total i j with hij | hij
      · exact Or.inl (Or.inr ⟨h, hij⟩)
      · exact Or.inr (Or.inr ⟨h.symm, hij⟩)
    · exact Or.inl (Or.inl h)

instance (vals : List ℚ) : IsTrans Nat (densLEK vals) where
  trans i j k hij hjk := by
    unfold densLEK at *
    rcases hij with h1 | ⟨h1, h1'⟩
    · rcases hjk with h2 | ⟨h2, _⟩
      · exact Or.inl (h2.trans h1)
      · exact Or.inl (h2 ▸ h1)
    · rcases hjk with h2 | ⟨h2, h2'⟩
      · exact Or.inl (h1.symm ▸ h2)
      · exact Or.inr ⟨h1.trans h2, h1'.trans h2'⟩

/-- `local[:2]` of a bucket, provided the bucket holds at least 4 records. -/
def top2K (keys : List (Int × Int)) (vals : List ℚ) (k : Int × Int) : List Nat :=
  if 4 ≤ (bucketOfK keys k).length then
    (List.insertionSort (densLEK vals) (bucketOfK keys k)).take 2
  else []

/-- Record `i` is one of the two strongest members of a bucket of at least four
records.  The dict iteration of the source touches each index in exactly one
bucket, so the per-bucket mutation loop is equivalent to this per-index test. -/
def gainsDense (sites : List CellSite) (i : Nat) : Prop :=
  i ∈ top2K (keyList sites) (valList sites) ((keyList sites).getD i (0, 0))

instance (sites : List CellSite) (i : Nat) : Decidable (gainsDense sites i) := by
  unfold gainsDense; infer_instance

/-- The density heuristic fires for record `i`: it is a top-2 member of a
big-enough bucket and does not already carry the reason. -/
def fireD (sites : List CellSite) (i : Nat) : Prop :=
  gainsDense sites i ∧ denseR ∉ (sites.getD i site0).reasons.getD []

instance (sites : List CellSite) (i : Nat) : Decidable (fireD sites i) := by
  unfold fireD; infer_instance

/-- The density-pass mutation of record `i` (flag and append, with duplicate
check). -/
def applyDense (sites : List CellSite) (i : Nat) : CellSite :=
  let s := sites.getD i site0
  if fireD sites i then
    { s with suspected_simulator := true, reasons := some (s.reasons.getD [] ++ [denseR]) }
  else s

/-- The density pass over a batch. -/
def densityStage (sites : List CellSite) : List CellSite :=
  (List.range sites.length).map (applyDense sites)

/-- `classify_sites`: normalization and per-record heuristics, then the density
heuristic. -/
def classify_sites (sites : List CellSite) : List CellSite :=
  densityStage (classify_pass1 sites)

/-!
The `Except`-valued rendering of `classify_sites`.  The operations of the
classification pass that raise in Python when `reasons` is `None` —
`s.reasons.append(...)` (`AttributeError`) and `... not in s.reasons`
(`TypeError`) — are modelled as fallible primitives; everything else in the
pass is total.  The numeric comparisons sit behind `is not None` guards in the
same boolean expression and the `.lower()` calls behind truthiness guards, so
their embeddings match on the option directly, as the short-circuit does.
-/

/-- `s.reasons.append(r)` — raises when `reasons` is `None`. -/
def pyAppendE : Option (List String) → String → Except String (List String)
  | none, _ => .error "AttributeError: append on None"
  | some l, r => .ok (l ++ [r])

/-- `r in s.reasons` — raises when `reasons` is `None`. -/
def pyMemE : Option (List String) → String → Except String Bool
  | none, _ => .error "TypeError: membership test on None"
  | some l, r => .ok (decide (r ∈ l))

def heur1E (s : CellSite) : Except String CellSite :=
  if fire1 s then
    match pyAppendE s.reasons missingR with
    | .error e => .error e
    | .ok rs => .ok { s with suspected_simulator := true, reasons := some rs }
  else .ok s

def heur2E (s : CellSite) : Except String CellSite :=
  match s.mcc, s.mnc with
  | some c, some n =>
      match registryGet c n with
      | some m =>
          if m ≠ "" ∧ truthyStr s.operator = true ∧ strLower m ≠ strLower (s.operator.getD "") then
            match pyAppendE s.reasons (mismatchR c n m) with
            | .error e => .error e
            | .ok rs => .ok { s with suspected_simulator := true, reasons := some rs }
          else .ok s
      | none => .ok s
  | _, _ => .ok s

def heur3E (s : CellSite) : Except String CellSite :=
  if strongCond s = true then
    match pyMemE s.reasons strongR with
    | .error e => .error e
    | .ok b =>
        if b = false then
          match pyAppendE s.reasons strongR with
          | .error e => .error e
          | .ok rs => .ok { s with suspected_simulator := true, reasons := some rs }
        else .ok s
  else .ok s

def heur4E (s : CellSite) : Except String CellSite :=
  if lowCond s = true then
    match pyMemE s.reasons lowR with
    | .error e => .error e
    | .ok b =>
        if b = false then
          match pyAppendE s.reasons lowR with
          | .error e => .error e
          | .ok rs => .ok { s with suspected_simulator := true, reasons := some rs }
        else .ok s
  else .ok s

/-- The four per-record heuristics in source order, propagating the first
raised exception. -/
def heurStageE (s : CellSite) : Except String CellSite :=
  match heur1E s with
  | .error e => .error e
  | .ok s1 =>
      match heur2E s1 with
      | .error e => .error e
      | .ok s2 =>
          match heur3E s2 with
          | .error e => .error e
          | .ok s3 => heur4E s3

def applyDenseE (sites : List CellSite) (i : Nat) : Except String CellSite :=
  if gainsDense sites i then
    match pyMemE (sites.getD i site0).reasons denseR with
    | .error e => .error e
    | .ok b =>
        if b = false then
          match pyAppendE (sites.getD i site0).reasons denseR with
          | .error e => .error e
          | .ok rs =>
              .ok { sites.getD i site0 with suspected_simulator := true, reasons := some rs }
        else .ok (sites.getD i site0)
  else .ok (sites.getD i site0)

/-- A Python `for` loop over `l` collecting `f`, propagating the first raised
exception. -/
def exceptMap {α β : Type} (f : α → Except String β) : List α → Except String (List β)
  | [] => .ok []
  | a :: l =>
      match f a with
      | .error e => .error e
      | .ok b =>
          match exceptMap f l with
          | .error e => .error e
          | .ok bs => .ok (b :: bs)

/-- `classify_sites` with the fallible operations made explicit. -/
def classify_sitesE (sites : List CellSite) : Except String (List CellSite) :=
  match exceptMap heurStageE (sites.map normStage) with
  | .error e => .error e
  | .ok a1 => exceptMap (applyDenseE a1) (List.range a1.length)

/-!
Definitions taken from the wording of the specification (not from the source),
used only to compare the specified density ranking with the implemented one:
the specification ranks bucket members by descending RSRP with an *absent*
RSRP as the weakest possible value, ties by batch order.
-/

/-- Record `j` strictly precedes record `i` in the ranking described by the
specification. -/
def specBefore (sites : List CellSite) (j i : Nat) : Bool :=
  match (sites.getD j site0).rsrp, (sites.getD i site0).rsrp with
  | some a, some b => decide (b < a ∨ (a = b ∧ j < i))
  | some _, none => true
  | none, some _ => false
  | none, none => decide (j < i)

/-- The number of bucket-mates ranked strictly before `i` by the
specification's ranking. -/
def specRank (sites : List CellSite) (i : Nat) : Nat :=
  ((bucketOfK (keyList sites) ((keyList sites).getD i (0, 0))).filter
    (fun j => specBefore sites j i)).length

/-- Record `i` should gain the dense-cluster reason according to the claim's
ranking: its bucket has at least 4 members and it is one of its top 2. -/
def specGains (sites : List CellSite) (i : Nat) : Prop :=
  4 ≤ (bucketOfK (keyList sites) ((keyList sites).getD i (0, 0))).length ∧
    specRank sites i < 2

instance (sites : List CellSite) (i : Nat) : Decidable (specGains sites i) := by
  unfold specGains; infer_instance

/-!  Helper lemmas: which fields each stage can touch. -/

/-- All the fields of a `CellSite` other than the operator label, the
suspicion flag and the reasons list. -/
def classFrame (a b : CellSite) : Prop :=
  a.lat = b.lat ∧ a.lon = b.lon ∧ a.mcc = b.mcc ∧ a.mnc = b.mnc ∧
  a.lac = b.lac ∧ a.tac = b.tac ∧ a.cid = b.cid ∧ a.pci = b.pci ∧
  a.arfcn = b.arfcn ∧ a.band = b.band ∧ a.rsrp = b.rsrp ∧ a.rsrq = b.rsrq ∧
  a.rssi = b.rssi ∧ a.timestamp = b.timestamp

theorem classFrame.rfl (a : CellSite) : classFrame a a := by
  unfold classFrame; repeat' constructor

theorem classFrame.trans {a b c : CellSite} (h1 : classFrame a b) (h2 : classFrame b c) :
    classFrame a c := by
  unfold classFrame at *
  obtain ⟨e1, e2, e3, e4, e5, e6, e7, e8, e9, e10, e11, e12, e13, e14⟩ := h1
  obtain ⟨f1, f2, f3, f4, f5, f6, f7, f8, f9, f10, f11, f12, f13, f14⟩ := h2
  exact ⟨e1.trans f1, e2.trans f2, e3.trans f3, e4.trans f4, e5.trans f5, e6.trans f6,
         e7.trans f7, e8.trans f8, e9.trans f9, e10.trans f10, e11.trans f11, e12.trans f12,
         e13.trans f13, e14.trans f14⟩

theorem normalize_operator_frame (s : CellSite) : classFrame (normalize_operator s) s := by
  unfold normalize_operator classFrame
  split <;> (try split) <;> simp

theorem normalize_operator_flag (s : CellSite) :
    (normalize_operator s).suspected_simulator = s.suspected_simulator := by
  unfold normalize_operator
  split <;> (try split) <;> simp

theorem normalize_operator_reasons (s : CellSite) :
    (normalize_operator s).reasons = s.reasons := by
  unfold normalize_operator
  split <;> (try split) <;> simp

theorem normStage_frame (s : CellSite) : classFrame (normStage s) s := by
  refine classFrame.trans ?_ (normalize_operator_frame s)
  unfold normStage classFrame
  simp

theorem normStage_flag (s : CellSite) :
    (normStage s).suspected_simulator = s.suspected_simulator := by
  unfold normStage
  simp [normalize_operator_flag s]

theorem normStage_reasons (s : CellSite) :
    (normStage s).reasons = some (s.reasons.getD []) := by
  unfold normStage
  simp [normalize_operator_reasons s]

theorem normStage_mcc (s : CellSite) : (normStage s).mcc = s.mcc :=
  (normStage_frame s).2.2.1

theorem normStage_mnc (s : CellSite) : (normStage s).mnc = s.mnc :=
  (normStage_frame s).2.2.2.1

theorem heur1_frame (s : CellSite) : classFrame (heur1 s) s := by
  unfold heur1 classFrame; split <;> simp

theorem heur2_frame (s : CellSite) : classFrame (heur2 s) s := by
  unfold heur2 classFrame
  split <;> (try split) <;> (try split) <;> simp

theorem heur3_frame (s : CellSite) : classFrame (heur3 s) s := by
  unfold heur3 classFrame; split <;> simp

theorem heur4_frame (s : CellSite) : classFrame (heur4 s) s := by
  unfold heur4 classFrame; split <;> simp

theorem heurStage_frame (s : CellSite) : classFrame (heurStage s) s := by
  unfold heurStage
  exact ((heur4_frame _).trans ((heur3_frame _).trans ((heur2_frame _).trans (heur1_frame s))))

theorem heur1_operator (s : CellSite) : (heur1 s).operator = s.operator := by
  unfold heur1; split <;> simp

theorem heur2_operator (s : CellSite) : (heur2 s).operator = s.operator := by
  unfold heur2
  split <;> (try split) <;> (try split) <;> simp

theorem heur3_operator (s : CellSite) : (heur3 s).operator = s.operator := by
  unfold heur3; split <;> simp

theorem heur4_operator (s : CellSite) : (heur4 s).operator = s.operator := by
  unfold heur4; split <;> simp

/-!  Helper lemmas: flag and reasons behaviour of each stage. -/

theorem heur1_reasons (s : CellSite) :
    (heur1 s).reasons.getD [] = s.reasons.getD [] ++ (if fire1 s then [missingR] else []) := by
  unfold heur1; split <;> simp_all

theorem heur1_flag (s : CellSite) :
    (heur1 s).suspected_simulator = true ↔
      s.suspected_simulator = true ∨ fire1 s := by
  unfold heur1; split <;> simp_all

theorem heur2_reasons (s : CellSite) :
    (heur2 s).reasons.getD [] = s.reasons.getD [] ++ mismatchApp s := by
  unfold heur2 mismatchApp
  split <;> (try split) <;> (try split) <;> simp

theorem heur2_flag (s : CellSite) :
    (heur2 s).suspected_simulator = true ↔
      s.suspected_simulator = true ∨ mismatchApp s ≠ [] := by
  unfold heur2 mismatchApp
  split <;> (try split) <;> (try split) <;> simp

theorem heur3_reasons (s : CellSite) :
    (heur3 s).reasons.getD [] = s.reasons.getD [] ++ (if fire3 s then [strongR] else []) := by
  unfold heur3; split <;> simp_all

theorem heur3_flag (s : CellSite) :
    (heur3 s).suspected_simulator = true ↔
      s.suspected_simulator = true ∨ fire3 s := by
  unfold heur3; split <;> simp_all

theorem heur4_reasons (s : CellSite) :
    (heur4 s).reasons.getD [] = s.reasons.getD [] ++ (if fire4 s then [lowR] else []) := by
  unfold heur4; split <;> simp_all

theorem heur4_flag (s : CellSite) :
    (heur4 s).suspected_simulator = true ↔
      s.suspected_simulator = true ∨ fire4 s := by
  unfold heur4; split <;> simp_all

theorem applyDense_frame (sites : List CellSite) (i : Nat) :
    classFrame (applyDense sites i) (sites.getD i site0) := by
  unfold applyDense classFrame; split <;> simp

theorem applyDense_operator (sites : List CellSite) (i : Nat) :
    (applyDense sites i).operator = (sites.getD i site0).operator := by
  unfold applyDense; split <;> simp

theorem applyDense_reasons (sites : List CellSite) (i : Nat) :
    (applyDense sites i).reasons.getD [] =
      (sites.getD i site0).reasons.getD [] ++ (if fireD sites i then [denseR] else []) := by
  unfold applyDense; split <;> simp_all

theorem applyDense_flag (sites : List CellSite) (i : Nat) :
    (applyDense sites i).suspected_simulator = true ↔
      (sites.getD i site0).suspected_simulator = true ∨ fireD sites i := by
  unfold applyDense; split <;> simp_all

/-!  Composite monotonicity lemmas. -/

theorem heurStage_flag_mono (s : CellSite) (h : s.suspected_simulator = true) :
    (heurStage s).suspected_simulator = true := by
  unfold heurStage
  exact (heur4_flag _).mpr (Or.inl ((heur3_flag _).mpr (Or.inl ((heur2_flag _).mpr
    (Or.inl ((heur1_flag _).mpr (Or.inl h)))))))

theorem heurStage_mem (s : CellSite) (x : String) (h : x ∈ s.reasons.getD []) :
    x ∈ (heurStage s).reasons.getD [] := by
  unfold heurStage
  rw [heur4_reasons, heur3_reasons, heur2_reasons, heur1_reasons]
  exact List.mem_append_left _ (List.mem_append_left _ (List.mem_append_left _
    (List.mem_append_left _ h)))

/-!  Indexing lemmas. -/

theorem getD_map_lt {α β : Type} (f : α → β) (l : List α) (i : Nat) (h : i < l.length)
    (d : α) (d' : β) : (l.map f).getD i d' = f (l.getD i d) := by
  rw [List.getD_eq_getElem?_getD, List.getElem?_map, List.getD_eq_getElem?_getD,
      List.getElem?_eq_getElem h]
  simp

theorem getD_range_map {β : Type} (f : Nat → β) (n i : Nat) (h : i < n) (d : β) :
    ((List.range n).map f).getD i d = f i := by
  rw [getD_map_lt f (List.range n) i (by simpa using h) 0]
  congr 1
  rw [List.getD_eq_getElem?_getD, List.getElem?_range h]
  rfl

theorem classify_pass1_length (sites : List CellSite) :
    (classify_pass1 sites).length = sites.length := by
  unfold classify_pass1; simp

theorem densityStage_length (sites : List CellSite) :
    (densityStage sites).length = sites.length := by
  unfold densityStage; simp

theorem classify_length (sites : List CellSite) :
    (classify_sites sites).length = sites.length := by
  unfold classify_sites
  rw [densityStage_length, classify_pass1_length]

theorem pass1_getD (sites : List CellSite) (i : Nat) (h : i < sites.length) :
    (classify_pass1 sites).getD i site0 = heurStage (normStage (sites.getD i site0)) := by
  unfold classify_pass1
  rw [getD_map_lt heurStage _ i (by simpa using h) site0,
      getD_map_lt normStage _ i (by simpa using h) site0]

theorem classify_getD (sites : List CellSite) (i : Nat) (h : i < sites.length) :
    (classify_sites sites).getD i site0 = applyDense (classify_pass1 sites) i := by
  unfold classify_sites densityStage
  exact getD_range_map (applyDense (classify_pass1 sites)) _ i
    (by rw [classify_pass1_length]; exact h) site0

/-!  The frame, flag-monotonicity and reasons-monotonicity of a whole
classification pass, record by record. -/

theorem classify_frame_getD (sites : List CellSite) (i : Nat) (h : i < sites.length) :
    classFrame ((classify_sites sites).getD i site0) (sites.getD i site0) := by
  rw [classify_getD sites i h]
  refine (applyDense_frame _ i).trans ?_
  rw [pass1_getD sites i h]
  exact (heurStage_frame _).trans (normStage_frame _)

theorem classify_flag_mono (sites : List CellSite) (i : Nat) (h : i < sites.length)
    (hf : (sites.getD i site0).suspected_simulator = true) :
    ((classify_sites sites).getD i site0).suspected_simulator = true := by
  rw [classify_getD sites i h]
  refine (applyDense_flag _ i).mpr (Or.inl ?_)
  rw [pass1_getD sites i h]
  refine heurStage_flag_mono _ ?_
  rw [normStage_flag]
  exact hf

theorem classify_mem_mono (sites : List CellSite) (i : Nat) (h : i < sites.length)
    (x : String) (hx : x ∈ (sites.getD i site0).reasons.getD []) :
    x ∈ ((classify_sites sites).getD i site0).reasons.getD [] := by
  rw [classify_getD sites i h]
  rw [applyDense_reasons]
  refine List.mem_append_left _ ?_
  rw [pass1_getD sites i h]
  refine heurStage_mem _ x ?_
  rw [normStage_reasons]
  simpa using hx

/-!  Conditions depend only on framed fields. -/

theorem strongCond_congr {a b : CellSite} (h : classFrame a b) : strongCond a = strongCond b := by
  unfold strongCond
  rw [h.2.2.2.2.2.2.2.2.2.2.1, h.2.2.2.2.2.2.2.2.2.2.2.2.1]

theorem lowCond_congr {a b : CellSite} (h : classFrame a b) : lowCond a = lowCond b := by
  unfold lowCond
  rw [h.2.2.2.2.1, h.2.2.2.2.2.1, h.2.2.2.2.2.2.1]

theorem bucketKey_congr {a b : CellSite} (h : classFrame a b) : bucketKey a = bucketKey b := by
  unfold bucketKey
  rw [h.1, h.2.1]

theorem sortVal_congr {a b : CellSite} (h : classFrame a b) : sortVal a = sortVal b := by
  unfold sortVal
  rw [h.2.2.2.2.2.2.2.2.2.2.1]

/-!  String facts: the mismatch reason can never collide with the other
reason strings (its first characters differ). -/

theorem mismatchR_take4 (c n : Int) (m : String) :
    (mismatchR c n m).data.take 4 = ['M', 'C', 'C', '/'] := rfl

theorem mismatchR_ne {c n : Int} {m r : String}
    (hr : r.data.take 4 ≠ ['M', 'C', 'C', '/']) : mismatchR c n m ≠ r :=
  fun he => hr (he ▸ mismatchR_take4 c n m)

theorem mem_mismatchApp {s : CellSite} {x : String} (hx : x ∈ mismatchApp s) :
    ∃ c n m, x = mismatchR c n m := by
  unfold mismatchApp at hx
  split at hx
  · split at hx
    · split at hx
      · exact ⟨_, _, _, by simpa using hx⟩
      · simp at hx
    · simp at hx
  · simp at hx

/-!  Membership in the first two entries of a list sorted by an antisymmetric
total order, characterised by the number of strictly-smaller elements. -/

theorem mem_take_sorted_iff {r : Nat → Nat → Prop} [DecidableRel r]
    (hanti : ∀ a b, r a b → r b a → a = b) :
    ∀ (l : List Nat) (k i : Nat), List.Sorted r l →
      (i ∈ l.take k ↔ i ∈ l ∧ (l.filter fun j => decide (r j i ∧ j ≠ i)).length < k) := by
  intro l
  induction l with
  | nil => intro k i _; simp
  | cons a t ih =>
    intro k i hs
    rw [List.sorted_cons] at hs
    rcases k with _ | k
    · simp
    · by_cases hia : i = a
      · subst hia
        have hfil : ((i :: t).filter fun j => decide (r j i ∧ j ≠ i)) = [] := by
          rw [List.filter_eq_nil_iff]
          intro j hj
          simp only [decide_eq_true_eq, not_and, ne_eq, not_not]
          intro hji
          rcases List.mem_cons.mp hj with rfl | hjt
          · rfl
          · exact hanti j i hji (hs.1 j hjt)
        rw [List.take_succ_cons, hfil]
        simp
      · rw [List.take_succ_cons]
        by_cases hit : i ∈ t
        · have hfc : ((a :: t).filter fun j => decide (r j i ∧ j ≠ i)) =
              a :: (t.filter fun j => decide (r j i ∧ j ≠ i)) := by
            rw [List.filter_cons_of_pos]
            simp only [decide_eq_true_eq, ne_eq]
            exact ⟨hs.1 i hit, fun h => hia h.symm⟩
          rw [hfc]
          simp only [List.mem_cons, List.length_cons, hia, false_or]
          rw [Nat.succ_lt_succ_iff, ih k i hs.2]
        · constructor
          · intro hmem
            rcases List.mem_cons.mp hmem with rfl | hmem'
            · exact absurd rfl hia
            · exact absurd (List.take_subset k t hmem') hit
          · rintro ⟨hmem, -⟩
            rcases List.mem_cons.mp hmem with rfl | hmem'
            · exact absurd rfl hia
            · exact absurd hmem' hit

theorem densLEK_antisymm (vals : List ℚ) :
    ∀ a b, densLEK vals a b → densLEK vals b a → a = b := by
  intro a b hab hba
  unfold densLEK at hab hba
  rcases hab with h1 | ⟨h1, h1'⟩ <;> rcases hba with h2 | ⟨h2, h2'⟩
  · exact absurd (h1.trans h2) (lt_irrefl _)
  · rw [h2] at h1; exact absurd h1 (lt_irrefl _)
  · rw [h1] at h2; exact absurd h2 (lt_irrefl _)
  · exact Nat.le_antisymm h1' h2'

theorem mem_bucketOfK (keys : List (Int × Int)) (k : Int × Int) (j : Nat) :
    j ∈ bucketOfK keys k ↔ j < keys.length ∧ keys.getD j (0, 0) = k := by
  unfold bucketOfK
  simp [List.mem_filter, List.mem_range]

/-- Record `j` comes strictly before record `i` in the density ordering the
source actually sorts by (`rsrp or -200` descending, ties by batch order). -/
def rankedBefore (vals : List ℚ) (j i : Nat) : Prop :=
  vals.getD i 0 < vals.getD j 0 ∨ (vals.getD j 0 = vals.getD i 0 ∧ j < i)

instance (vals : List ℚ) (j i : Nat) : Decidable (rankedBefore vals j i) := by
  unfold rankedBefore; infer_instance

/-- The number of bucket-mates of `i` ranked strictly before it by the
implemented density ordering. -/
def denseRank (sites : List CellSite) (i : Nat) : Nat :=
  ((bucketOfK (keyList sites) ((keyList sites).getD i (0, 0))).filter
    (fun j => decide (rankedBefore (valList sites) j i))).length

theorem rankedBefore_iff (vals : List ℚ) (j i : Nat) :
    (densLEK vals j i ∧ j ≠ i) ↔ rankedBefore vals j i := by
  unfold densLEK rankedBefore
  constructor
  · rintro ⟨h1 | ⟨h1, h1'⟩, hne⟩
    · exact Or.inl h1
    · exact Or.inr ⟨h1, lt_of_le_of_ne h1' hne⟩
  · rintro (h | ⟨h, h'⟩)
    · refine ⟨Or.inl h, ?_⟩
      rintro rfl
      exact absurd h (lt_irrefl _)
    · exact ⟨Or.inr ⟨h, le_of_lt h'⟩, Nat.ne_of_lt h'⟩

/-- The density heuristic's top-2 test, characterised without the sort: a
record gains exactly when its bucket has at least four members and fewer than
two of them are ranked before it. -/
theorem gainsDense_iff (sites : List CellSite) (i : Nat) (h : i < sites.length) :
    gainsDense sites i ↔
      4 ≤ (bucketOfK (keyList sites) ((keyList sites).getD i (0, 0))).length ∧
        denseRank sites i < 2 := by
  unfold gainsDense top2K denseRank
  have hkl : (keyList sites).length = sites.length := by unfold keyList; simp
  split
  case isTrue h4 =>
    rw [mem_take_sorted_iff (densLEK_antisymm (valList sites)) _ 2 i
        (List.sorted_insertionSort _ _)]
    have hperm := List.perm_insertionSort (densLEK (valList sites))
      (bucketOfK (keyList sites) ((keyList sites).getD i (0, 0)))
    rw [hperm.mem_iff]
    have hmem : i ∈ bucketOfK (keyList sites) ((keyList sites).getD i (0, 0)) := by
      rw [mem_bucketOfK]
      exact ⟨by rw [hkl]; exact h, rfl⟩
    have hflen := (hperm.filter (fun j => decide (densLEK (valList sites) j i ∧ j ≠ i))).length_eq
    rw [hflen]
    have hfeq : ((bucketOfK (keyList sites) ((keyList sites).getD i (0, 0))).filter
          (fun j => decide (densLEK (valList sites) j i ∧ j ≠ i))) =
        ((bucketOfK (keyList sites) ((keyList sites).getD i (0, 0))).filter
          (fun j => decide (rankedBefore (valList sites) j i))) := by
      refine List.filter_congr ?_
      intro j _
      exact decide_eq_decide.mpr (rankedBefore_iff (valList sites) j i)
    rw [hfeq]
    exact ⟨fun x => ⟨h4, x.2⟩, fun x => ⟨hmem, x.2⟩⟩
  case isFalse h4 =>
    simp only [List.not_mem_nil, false_iff, not_and]
    intro h4'
    exact absurd h4' h4

/-!  The flag-iff-nonempty-reasons invariant, preserved by every stage. -/

/-- The record invariant of the engine: reasons materialised, and the flag
set exactly when some reason is present. -/
def invFR (s : CellSite) : Prop :=
  ∃ l, s.reasons = some l ∧ (s.suspected_simulator = true ↔ l ≠ [])

theorem heur1_invFR {s : CellSite} (h : invFR s) : invFR (heur1 s) := by
  obtain ⟨l, hl, hiff⟩ := h
  unfold heur1
  split
  · exact ⟨_, rfl, by simp⟩
  · exact ⟨l, hl, hiff⟩

theorem heur2_invFR {s : CellSite} (h : invFR s) : invFR (heur2 s) := by
  obtain ⟨l, hl, hiff⟩ := h
  unfold heur2
  split
  · split
    · split
      · exact ⟨_, rfl, by simp⟩
      · exact ⟨l, hl, hiff⟩
    · exact ⟨l, hl, hiff⟩
  · exact ⟨l, hl, hiff⟩

theorem heur3_invFR {s : CellSite} (h : invFR s) : invFR (heur3 s) := by
  obtain ⟨l, hl, hiff⟩ := h
  unfold heur3
  split
  · exact ⟨_, rfl, by simp⟩
  · exact ⟨l, hl, hiff⟩

theorem heur4_invFR {s : CellSite} (h : invFR s) : invFR (heur4 s) := by
  obtain ⟨l, hl, hiff⟩ := h
  unfold heur4
  split
  · exact ⟨_, rfl, by simp⟩
  · exact ⟨l, hl, hiff⟩

theorem heurStage_invFR {s : CellSite} (h : invFR s) : invFR (heurStage s) :=
  heur4_invFR (heur3_invFR (heur2_invFR (heur1_invFR h)))

theorem applyDense_invFR (sites : List CellSite) (i : Nat)
    (h : invFR (sites.getD i site0)) : invFR (applyDense sites i) := by
  obtain ⟨l, hl, hiff⟩ := h
  unfold applyDense
  split
  · exact ⟨_, rfl, by simp⟩
  · exact ⟨l, hl, hiff⟩

/-!  Identity behaviour of the normalizer in the guard-false cases. -/

theorem normalize_operator_eq_of_absent {s : CellSite}
    (hid : s.mcc = none ∨ s.mnc = none) : normalize_operator s = s := by
  unfold normalize_operator
  split
  · rcases hid with h | h <;> simp_all
  · rfl

theorem normalize_operator_eq_of_truthy {s : CellSite}
    (hop : truthyStr s.operator = true) : normalize_operator s = s := by
  unfold normalize_operator
  split
  · rw [if_neg]
    simp [hop]
  · rfl

theorem normStage_operator (s : CellSite) :
    (normStage s).operator = (normalize_operator s).operator := rfl

/-!  A mismatch reason string cannot collide with the fixed reason strings. -/

theorem mem_ite_single {c : Prop} [Decidable c] {x y : String} (hxy : x ≠ y) :
    x ∉ (if c then [y] else []) := by
  split <;> simp [hxy]

theorem not_mem_mismatchApp {s : CellSite} {x : String}
    (hx : x.data.take 4 ≠ ['M', 'C', 'C', '/']) : x ∉ mismatchApp s := by
  intro hmem
  obtain ⟨c, n, m, heq⟩ := mem_mismatchApp hmem
  exact mismatchR_ne hx heq.symm

/-!  Registry values are never the empty string. -/

theorem lookup_mem_values {l : List ((Int × Int) × String)} {k : Int × Int} {m : String}
    (h : l.lookup k = some m) : m ∈ l.map Prod.snd := by
  induction l with
  | nil => simp [List.lookup] at h
  | cons a t ih =>
    rw [List.lookup] at h
    split at h
    · simp only [Option.some.injEq] at h
      exact List.mem_cons.mpr (Or.inl h.symm)
    · exact List.mem_cons.mpr (Or.inr (ih h))

theorem registryGet_ne_empty {c n : Int} {m : String}
    (h : registryGet c n = some m) : m ≠ "" := by
  have hm := lookup_mem_values h
  simp only [US_OPERATOR_BY_MCC_MNC, List.map_cons, List.map_nil, List.mem_cons,
    List.not_mem_nil, or_false] at hm
  rcases hm with rfl | rfl | rfl | rfl | rfl | rfl | rfl <;> decide

/-!  Concrete batches used by the scenario witnesses and counterexamples. -/

/-- Scenario A: no operator, no MCC/MNC, RSRP −80, everything else clean. -/
def recA : CellSite := { lat := 0, lon := 0, rsrp := some (-80), reasons := none }

/-- Scenario B: operator label contradicting the registry entry for (310, 410). -/
def recB : CellSite :=
  { lat := 0, lon := 0, operator := some "Verizon", mcc := some 310, mnc := some 410,
    reasons := some [] }

/-- Scenario D, flagged half: TAC 0 on an otherwise clean record. -/
def recD0 : CellSite :=
  { lat := 0, lon := 0, operator := some "AT&T", mcc := some 310, mnc := some 410,
    tac := some 0, reasons := some [] }

/-- Scenario D, clean half: TAC 2 on an otherwise clean record. -/
def recD2 : CellSite :=
  { lat := 0, lon := 0, operator := some "AT&T", mcc := some 310, mnc := some 410,
    tac := some 2, reasons := some [] }

/-- A record with no identity at all (used to exhibit non-idempotence). -/
def recNoId : CellSite := { lat := 0, lon := 0, reasons := some [] }

/-- A clean co-located record with the given RSRP. -/
def mkDense (r : ℚ) : CellSite :=
  { lat := 0, lon := 0, operator := some "AT&T", mcc := some 310, mnc := some 410,
    rsrp := some r, reasons := some [] }

/-- Four co-located records, the strongest of which reports RSRP 0. -/
def cxDense : List CellSite := [mkDense 0, mkDense (-10), mkDense (-20), mkDense (-30)]

/-- An empty-string operator with a present MCC/MNC pair that misses the
registry. -/
def recMiss : CellSite :=
  { lat := 0, lon := 0, operator := some "", mcc := some 310, mnc := some 1,
    reasons := some [] }

/-- An empty-string operator with a present MCC/MNC pair that hits the
registry. -/
def recHit : CellSite :=
  { lat := 0, lon := 0, operator := some "", mcc := some 310, mnc := some 410,
    reasons := some [] }

/-!  Composition helpers: pushing a fact established after `heur1` (or later)
through the remaining heuristics and the density pass. -/

theorem heur234_mem {s : CellSite} {x : String} (hx : x ∈ (heur1 s).reasons.getD []) :
    x ∈ (heurStage s).reasons.getD [] := by
  unfold heurStage
  rw [heur4_reasons, heur3_reasons, heur2_reasons]
  exact List.mem_append_left _ (List.mem_append_left _ (List.mem_append_left _ hx))

theorem heur234_flag {s : CellSite} (hf : (heur1 s).suspected_simulator = true) :
    (heurStage s).suspected_simulator = true := by
  unfold heurStage
  exact (heur4_flag _).mpr (Or.inl ((heur3_flag _).mpr (Or.inl ((heur2_flag _).mpr (Or.inl hf)))))

theorem heur34_mem {s : CellSite} {x : String}
    (hx : x ∈ (heur2 (heur1 s)).reasons.getD []) :
    x ∈ (heurStage s).reasons.getD [] := by
  unfold heurStage
  rw [heur4_reasons, heur3_reasons]
  exact List.mem_append_left _ (List.mem_append_left _ hx)

theorem heur34_flag {s : CellSite} (hf : (heur2 (heur1 s)).suspected_simulator = true) :
    (heurStage s).suspected_simulator = true := by
  unfold heurStage
  exact (heur4_flag _).mpr (Or.inl ((heur3_flag _).mpr (Or.inl hf)))

/-- A flag and a reason established by pass 1 survive the density pass. -/
theorem classify_of_pass1 (sites : List CellSite) (i : Nat) (h : i < sites.length)
    (hf : ((classify_pass1 sites).getD i site0).suspected_simulator = true)
    {x : String} (hx : x ∈ ((classify_pass1 sites).getD i site0).reasons.getD []) :
    ((classify_sites sites).getD i site0).suspected_simulator = true ∧
      x ∈ ((classify_sites sites).getD i site0).reasons.getD [] := by
  rw [classify_getD sites i h]
  refine ⟨(applyDense_flag _ i).mpr (Or.inl hf), ?_⟩
  rw [applyDense_reasons]
  exact List.mem_append_left _ hx

/-- Any record whose operator label is falsy and whose MCC or MNC is absent is
flagged with the missing-identity reason. -/
theorem classify_missing_aux (sites : List CellSite) (i : Nat) (h : i < sites.length)
    (hop : truthyStr (sites.getD i site0).operator = false)
    (hid : (sites.getD i site0).mcc = none ∨ (sites.getD i site0).mnc = none) :
    ((classify_sites sites).getD i site0).suspected_simulator = true ∧
      missingR ∈ ((classify_sites sites).getD i site0).reasons.getD [] := by
  have hnorm : normalize_operator (sites.getD i site0) = sites.getD i site0 :=
    normalize_operator_eq_of_absent hid
  have hfire : fire1 (normStage (sites.getD i site0)) := by
    unfold fire1
    refine ⟨by rw [normStage_operator, hnorm]; exact hop, ?_⟩
    rcases hid with hh | hh
    · exact Or.inl (by rw [normStage_mcc]; exact hh)
    · exact Or.inr (by rw [normStage_mnc]; exact hh)
  have hflag1 : (heur1 (normStage (sites.getD i site0))).suspected_simulator = true :=
    (heur1_flag _).mpr (Or.inr hfire)
  have hmem1 : missingR ∈ (heur1 (normStage (sites.getD i site0))).reasons.getD [] := by
    rw [heur1_reasons, if_pos hfire]
    exact List.mem_append_right _ (by simp)
  have hp := pass1_getD sites i h
  refine classify_of_pass1 sites i h ?_ ?_
  · rw [hp]; exact heur234_flag hflag1
  · rw [hp]; exact heur234_mem hmem1

/-- Claim C9 (confirmed): `classify_sites` neither adds nor removes records,
and for every record it leaves the latitude, longitude, MCC, MNC, LAC, TAC,
CID, PCI, ARFCN, band, RSRP, RSRQ, RSSI and timestamp fields unchanged — only
the operator label, the suspicion flag and the reasons list can change. -/
theorem classify_sites_frame_only (sites : List CellSite) :
    (classify_sites sites).length = sites.length ∧
    ∀ i, i < sites.length →
      classFrame ((classify_sites sites).getD i site0) (sites.getD i site0) :=
  ⟨classify_length sites, fun i h => classify_frame_getD sites i h⟩

theorem classify_sites_frame_only_witness :
    0 < ([recB] : List CellSite).length ∧
    classFrame ((classify_sites [recB]).getD 0 site0) ([recB].getD 0 site0) :=
  ⟨by decide, (classify_sites_frame_only [recB]).2 0 (by decide)⟩

/-- Claim C3 (confirmed): a record entering classification in the default
state (flag unset, reasons absent or empty) leaves it with a materialised
(non-`None`, possibly empty) reasons list, and its suspicion flag is true
exactly when that list is non-empty. -/
theorem classify_flag_iff_reasons (sites : List CellSite) (i : Nat) (h : i < sites.length)
    (hflag : (sites.getD i site0).suspected_simulator = false)
    (hr : (sites.getD i site0).reasons = none ∨ (sites.getD i site0).reasons = some []) :
    ∃ l, ((classify_sites sites).getD i site0).reasons = some l ∧
      (((classify_sites sites).getD i site0).suspected_simulator = true ↔ l ≠ []) := by
  rw [classify_getD sites i h]
  refine applyDense_invFR _ i ?_
  rw [pass1_getD sites i h]
  refine heurStage_invFR ?_
  refine ⟨[], ?_, ?_⟩
  · rw [normStage_reasons]
    rcases hr with hh | hh <;> rw [hh] <;> rfl
  · rw [normStage_flag, hflag]
    simp

theorem classify_flag_iff_reasons_witness :
    ([recA].getD 0 site0).suspected_simulator = false ∧
    ([recA].getD 0 site0).reasons = none ∧
    ∃ l, ((classify_sites [recA]).getD 0 site0).reasons = some l ∧
      (((classify_sites [recA]).getD 0 site0).suspected_simulator = true ↔ l ≠ []) :=
  ⟨by decide, by decide,
    classify_flag_iff_reasons [recA] 0 (by decide) (by decide) (Or.inl (by decide))⟩

/-- Claim C6 (confirmed): a record with no operator label and an absent MCC or
MNC is flagged with the missing-identity reason; Scenario A — a record with
operator, MCC and MNC all absent and RSRP −80 ends up flagged with exactly
`["Missing operator and MCC/MNC"]`. -/
theorem classify_missing_identity :
    (∀ (sites : List CellSite) (i : Nat), i < sites.length →
        (sites.getD i site0).operator = none →
        ((sites.getD i site0).mcc = none ∨ (sites.getD i site0).mnc = none) →
        ((classify_sites sites).getD i site0).suspected_simulator = true ∧
          missingR ∈ ((classify_sites sites).getD i site0).reasons.getD []) ∧
    (classify_sites [recA]).map (fun s => (s.suspected_simulator, s.reasons.getD [])) =
      [(true, [missingR])] := by
  refine ⟨?_, by decide⟩
  intro sites i h hop hid
  exact classify_missing_aux sites i h (by rw [hop]; rfl) hid

theorem classify_missing_identity_witness :
    ([recA].getD 0 site0).operator = none ∧
    (([recA].getD 0 site0).mcc = none ∨ ([recA].getD 0 site0).mnc = none) ∧
    ((classify_sites [recA]).getD 0 site0).suspected_simulator = true ∧
    missingR ∈ ((classify_sites [recA]).getD 0 site0).reasons.getD [] :=
  ⟨by decide, Or.inl (by decide),
    classify_missing_identity.1 [recA] 0 (by decide) (by decide) (Or.inl (by decide))⟩

/-- Claim C10 (confirmed): an empty-string operator label behaves exactly like
an absent one — `normalize_operator` overwrites it with the registry name on a
registry hit, and the unknown-identity heuristic fires when MCC or MNC is also
absent. -/
theorem empty_operator_treated_as_absent :
    (∀ (s : CellSite) (c n : Int) (m : String), s.operator = some "" → s.mcc = some c →
        s.mnc = some n → registryGet c n = some m →
        (normalize_operator s).operator = some m) ∧
    (∀ (sites : List CellSite) (i : Nat), i < sites.length →
        (sites.getD i site0).operator = some "" →
        ((sites.getD i site0).mcc = none ∨ (sites.getD i site0).mnc = none) →
        ((classify_sites sites).getD i site0).suspected_simulator = true ∧
          missingR ∈ ((classify_sites sites).getD i site0).reasons.getD []) := by
  constructor
  · intro s c n m hop hc hn hm
    unfold normalize_operator
    rw [hc, hn, hop]
    simp [truthyStr, hm]
  · intro sites i h hop hid
    exact classify_missing_aux sites i h (by rw [hop]; rfl) hid

/-- An empty-string operator together with no MCC/MNC at all. -/
def recEmptyOp : CellSite := { lat := 0, lon := 0, operator := some "", reasons := some [] }

theorem empty_operator_treated_as_absent_witness :
    (recHit.operator = some "" ∧ recHit.mcc = some 310 ∧ recHit.mnc = some 410 ∧
      registryGet 310 410 = some "AT&T" ∧
      (normalize_operator recHit).operator = some "AT&T") ∧
    (([recEmptyOp].getD 0 site0).operator = some "" ∧
      ((classify_sites [recEmptyOp]).getD 0 site0).suspected_simulator = true ∧
      missingR ∈ ((classify_sites [recEmptyOp]).getD 0 site0).reasons.getD []) :=
  ⟨⟨by decide, by decide, by decide, by decide,
      empty_operator_treated_as_absent.1 recHit 310 410 "AT&T" (by decide) (by decide)
        (by decide) (by decide)⟩,
   ⟨by decide,
      (empty_operator_treated_as_absent.2 [recEmptyOp] 0 (by decide) (by decide)
        (Or.inl (by decide))).1,
      (empty_operator_treated_as_absent.2 [recEmptyOp] 0 (by decide) (by decide)
        (Or.inl (by decide))).2⟩⟩

/-- Any record satisfying the low-codes condition and not already carrying the
low-codes reason is flagged with it. -/
theorem classify_low_aux (sites : List CellSite) (i : Nat) (h : i < sites.length)
    (hlc : lowCond (sites.getD i site0) = true)
    (hnm : lowR ∉ (sites.getD i site0).reasons.getD []) :
    ((classify_sites sites).getD i site0).suspected_simulator = true ∧
      lowR ∈ ((classify_sites sites).getD i site0).reasons.getD [] := by
  have h0c : lowCond (normStage (sites.getD i site0)) = true := by
    rw [lowCond_congr (normStage_frame _)]; exact hlc
  have h0m : lowR ∉ (normStage (sites.getD i site0)).reasons.getD [] := by
    rw [normStage_reasons]; simpa using hnm
  have h1c : lowCond (heur1 (normStage (sites.getD i site0))) = true := by
    rw [lowCond_congr (heur1_frame _)]; exact h0c
  have h1m : lowR ∉ (heur1 (normStage (sites.getD i site0))).reasons.getD [] := by
    rw [heur1_reasons]
    intro hmem
    rcases List.mem_append.mp hmem with hm | hm
    · exact h0m hm
    · exact mem_ite_single (by decide) hm
  have h2c : lowCond (heur2 (heur1 (normStage (sites.getD i site0)))) = true := by
    rw [lowCond_congr (heur2_frame _)]; exact h1c
  have h2m : lowR ∉ (heur2 (heur1 (normStage (sites.getD i site0)))).reasons.getD [] := by
    rw [heur2_reasons]
    intro hmem
    rcases List.mem_append.mp hmem with hm | hm
    · exact h1m hm
    · exact not_mem_mismatchApp (by decide) hm
  have h3c : lowCond (heur3 (heur2 (heur1 (normStage (sites.getD i site0))))) = true := by
    rw [lowCond_congr (heur3_frame _)]; exact h2c
  have h3m : lowR ∉ (heur3 (heur2 (heur1 (normStage (sites.getD i site0))))).reasons.getD [] := by
    rw [heur3_reasons]
    intro hmem
    rcases List.mem_append.mp hmem with hm | hm
    · exact h2m hm
    · exact mem_ite_single (by decide) hm
  have hf4 : fire4 (heur3 (heur2 (heur1 (normStage (sites.getD i site0))))) := ⟨h3c, h3m⟩
  have hp := pass1_getD sites i h
  refine classify_of_pass1 sites i h ?_ ?_
  · rw [hp]
    exact (heur4_flag _).mpr (Or.inr hf4)
  · rw [hp]
    show lowR ∈ (heur4 _).reasons.getD []
    rw [heur4_reasons, if_pos hf4]
    exact List.mem_append_right _ (by simp)

/-- Claim C7 (confirmed): a record with TAC or LAC present and at most 1, or
CID present and at most 1, that does not already carry the low-codes reason,
is flagged with that reason; Scenario D — a clean record with TAC 0 is flagged
with it, and a clean record with TAC 2 is not flagged at all. -/
theorem classify_low_codes :
    (∀ (sites : List CellSite) (i : Nat), i < sites.length →
        ((∃ t, (sites.getD i site0).tac = some t ∧ t ≤ 1) ∨
         (∃ t, (sites.getD i site0).lac = some t ∧ t ≤ 1) ∨
         (∃ t, (sites.getD i site0).cid = some t ∧ t ≤ 1)) →
        lowR ∉ (sites.getD i site0).reasons.getD [] →
        ((classify_sites sites).getD i site0).suspected_simulator = true ∧
          lowR ∈ ((classify_sites sites).getD i site0).reasons.getD []) ∧
    (classify_sites [recD2]).map (fun s => (s.suspected_simulator, s.reasons.getD [])) =
      [(false, [])] := by
  refine ⟨?_, by decide⟩
  intro sites i h hcond hnm
  refine classify_low_aux sites i h ?_ hnm
  unfold lowCond pyLe1Opt
  rcases hcond with ⟨t, ht, hle⟩ | ⟨t, ht, hle⟩ | ⟨t, ht, hle⟩ <;> rw [ht] <;> simp [hle]

theorem classify_low_codes_witness :
    (∃ t, ([recD0].getD 0 site0).tac = some t ∧ t ≤ 1) ∧
    lowR ∉ ([recD0].getD 0 site0).reasons.getD [] ∧
    ((classify_sites [recD0]).getD 0 site0).suspected_simulator = true ∧
    lowR ∈ ((classify_sites [recD0]).getD 0 site0).reasons.getD [] :=
  ⟨⟨0, by decide, by decide⟩, by decide,
    classify_low_codes.1 [recD0] 0 (by decide) (Or.inl ⟨0, by decide, by decide⟩) (by decide)⟩

/-- When the mismatch guard holds, `heur2` sets the flag and appends the
mismatch reason. -/
theorem heur2_fired {s : CellSite} {c n : Int} {m : String}
    (hc : s.mcc = some c) (hn : s.mnc = some n) (hm : registryGet c n = some m)
    (hop : truthyStr s.operator = true)
    (hne : strLower m ≠ strLower (s.operator.getD "")) :
    (heur2 s).suspected_simulator = true ∧
      mismatchR c n m ∈ (heur2 s).reasons.getD [] := by
  unfold heur2
  simp only [hc, hn, hm]
  rw [if_pos ⟨registryGet_ne_empty hm, hop, hne⟩]
  exact ⟨rfl, by simp⟩

/-- Claim C5 (confirmed): a record whose MCC/MNC pair is in the registry and
whose (truthy) operator label differs case-insensitively from the registry
name is flagged with a mismatch reason naming the expected operator;
Scenario B — operator "Verizon" with (310, 410) yields a reason naming
"AT&T". -/
theorem classify_operator_mismatch :
    (∀ (sites : List CellSite) (i : Nat), i < sites.length →
      ∀ (c n : Int) (m : String),
        (sites.getD i site0).mcc = some c →
        (sites.getD i site0).mnc = some n →
        registryGet c n = some m →
        truthyStr (sites.getD i site0).operator = true →
        strLower m ≠ strLower ((sites.getD i site0).operator.getD "") →
        ((classify_sites sites).getD i site0).suspected_simulator = true ∧
          mismatchR c n m ∈ ((classify_sites sites).getD i site0).reasons.getD []) ∧
    ((classify_sites [recB]).map (fun s => (s.suspected_simulator, s.reasons.getD [])) =
        [(true, [mismatchR 310 410 "AT&T"])] ∧
      mismatchR 310 410 "AT&T" = "MCC/MNC (310-410) mismatch: expected AT&T") := by
  refine ⟨?_, by decide, by decide⟩
  intro sites i h c n m hc hn hm hop hne
  have hnid : normalize_operator (sites.getD i site0) = sites.getD i site0 :=
    normalize_operator_eq_of_truthy hop
  have hop0 : (normStage (sites.getD i site0)).operator = (sites.getD i site0).operator := by
    rw [normStage_operator, hnid]
  have h10 : heur1 (normStage (sites.getD i site0)) = normStage (sites.getD i site0) := by
    unfold heur1
    rw [if_neg]
    intro hf
    obtain ⟨hf1, -⟩ := hf
    rw [hop0, hop] at hf1
    exact absurd hf1 (by decide)
  have h2 := heur2_fired (s := normStage (sites.getD i site0)) (c := c) (n := n) (m := m)
    (by rw [normStage_mcc]; exact hc) (by rw [normStage_mnc]; exact hn) hm
    (by rw [hop0]; exact hop) (by rw [hop0]; exact hne)
  have hp := pass1_getD sites i h
  refine classify_of_pass1 sites i h ?_ ?_
  · rw [hp]
    exact heur34_flag (by rw [h10]; exact h2.1)
  · rw [hp]
    exact heur34_mem (by rw [h10]; exact h2.2)

theorem classify_operator_mismatch_witness :
    ([recB].getD 0 site0).mcc = some 310 ∧
    ([recB].getD 0 site0).mnc = some 410 ∧
    registryGet 310 410 = some "AT&T" ∧
    truthyStr ([recB].getD 0 site0).operator = true ∧
    strLower "AT&T" ≠ strLower (([recB].getD 0 site0).operator.getD "") ∧
    ((classify_sites [recB]).getD 0 site0).suspected_simulator = true ∧
    mismatchR 310 410 "AT&T" ∈ ((classify_sites [recB]).getD 0 site0).reasons.getD [] :=
  ⟨by decide, by decide, by decide, by decide, by decide,
    (classify_operator_mismatch.1 [recB] 0 (by decide) 310 410 "AT&T" (by decide) (by decide)
      (by decide) (by decide) (by decide)).1,
    (classify_operator_mismatch.1 [recB] 0 (by decide) 310 410 "AT&T" (by decide) (by decide)
      (by decide) (by decide) (by decide)).2⟩

/-- Claim C8 counterexample: on a registry miss with an empty-string operator
label, `normalize_operator` does *not* leave the record unchanged — it
overwrites the empty string with `None` (the result of the failed lookup). -/
theorem normalize_operator_cx :
    recMiss.operator = some "" ∧ registryGet 310 1 = none ∧
    normalize_operator recMiss ≠ recMiss ∧
    (normalize_operator recMiss).operator = none := by decide

/-- Claim C8 (amended): `normalize_operator` assigns the registry lookup
result (the name on a hit, `None` on a miss) to the operator field exactly
when the operator label is falsy (absent or empty) and MCC and MNC are both
present — so a registry miss can erase an empty-string label; in every other
case the record is left unchanged, and no field besides the operator label,
in particular neither the flag nor the reasons, is ever modified. -/
theorem normalize_operator_cases (s : CellSite) :
    (∀ c n, s.mcc = some c → s.mnc = some n → truthyStr s.operator = false →
        normalize_operator s = { s with operator := registryGet c n }) ∧
    (truthyStr s.operator = true → normalize_operator s = s) ∧
    ((s.mcc = none ∨ s.mnc = none) → normalize_operator s = s) ∧
    (normalize_operator s).suspected_simulator = s.suspected_simulator ∧
    (normalize_operator s).reasons = s.reasons ∧
    classFrame (normalize_operator s) s := by
  refine ⟨?_, normalize_operator_eq_of_truthy, normalize_operator_eq_of_absent,
    normalize_operator_flag s, normalize_operator_reasons s, normalize_operator_frame s⟩
  intro c n hc hn hop
  unfold normalize_operator
  simp only [hc, hn]
  rw [if_pos hop]

theorem normalize_operator_cases_witness :
    recHit.mcc = some 310 ∧ recHit.mnc = some 410 ∧ truthyStr recHit.operator = false ∧
    normalize_operator recHit = { recHit with operator := registryGet 310 410 } ∧
    (normalize_operator recHit).operator = some "AT&T" :=
  ⟨by decide, by decide, by decide,
    (normalize_operator_cases recHit).1 310 410 (by decide) (by decide) (by decide),
    by decide⟩

/-!  Claim C2: the density pass. -/

theorem keyList_getD (sites : List CellSite) (i : Nat) (h : i < sites.length) :
    (keyList sites).getD i (0, 0) = bucketKey (sites.getD i site0) :=
  getD_map_lt bucketKey sites i h site0 (0, 0)

/-- Claim C2 counterexample: in a 4-record bucket whose strongest *present*
RSRP is 0, the claim's ranking (descending RSRP, absent last) makes record 0 a
top-2 member, yet the code ranks it by `rsrp or -200`, treats the falsy 0.0 as
−200, and gives the dense-cluster reason to records 1 and 2 instead. -/
theorem classify_dense_spec_cx :
    specGains cxDense 0 ∧
    (cxDense.getD 0 site0).rsrp = some 0 ∧
    denseR ∉ (cxDense.getD 0 site0).reasons.getD [] ∧
    (classify_sites cxDense).map (fun s => decide (denseR ∈ s.reasons.getD [])) =
      [false, true, true, false] := by decide

/-- Claim C2 (amended): pass 2 mutates exactly the top-2 members of each
bucket of at least four records, where members are ranked by the sort key the
code actually uses — the record's RSRP when present and non-zero, and −200
otherwise (so an absent or zero RSRP sorts as −200) — descending, with ties
broken by original batch order; every such member that does not already carry
the dense-cluster reason gets the flag and that reason appended, and every
other record is left exactly as pass 1 produced it. -/
theorem classify_dense_top2 (sites : List CellSite) (i : Nat) (h : i < sites.length) :
    (classify_sites sites).getD i site0 =
      (if 4 ≤ (bucketOfK (keyList (classify_pass1 sites))
            (bucketKey ((classify_pass1 sites).getD i site0))).length ∧
          denseRank (classify_pass1 sites) i < 2 ∧
          denseR ∉ ((classify_pass1 sites).getD i site0).reasons.getD []
       then { (classify_pass1 sites).getD i site0 with
              suspected_simulator := true,
              reasons := some (((classify_pass1 sites).getD i site0).reasons.getD []
                ++ [denseR]) }
       else (classify_pass1 sites).getD i site0) := by
  rw [classify_getD sites i h]
  have hlen1 : i < (classify_pass1 sites).length := by rw [classify_pass1_length]; exact h
  have hiff := gainsDense_iff (classify_pass1 sites) i hlen1
  rw [keyList_getD _ _ hlen1] at hiff
  unfold applyDense fireD
  exact if_congr (by rw [hiff, and_assoc]) rfl rfl

/-- Five co-located records with RSRP −70, −50, −90, −60, −80: the top 2 are
records 1 and 3. -/
def batchE : List CellSite :=
  [mkDense (-70), mkDense (-50), mkDense (-90), mkDense (-60), mkDense (-80)]

theorem classify_dense_top2_witness :
    1 < batchE.length ∧
    ((classify_sites batchE).getD 1 site0 =
      (if 4 ≤ (bucketOfK (keyList (classify_pass1 batchE))
            (bucketKey ((classify_pass1 batchE).getD 1 site0))).length ∧
          denseRank (classify_pass1 batchE) 1 < 2 ∧
          denseR ∉ ((classify_pass1 batchE).getD 1 site0).reasons.getD []
       then { (classify_pass1 batchE).getD 1 site0 with
              suspected_simulator := true,
              reasons := some (((classify_pass1 batchE).getD 1 site0).reasons.getD []
                ++ [denseR]) }
       else (classify_pass1 batchE).getD 1 site0)) ∧
    (classify_sites batchE).map (fun s => decide (denseR ∈ s.reasons.getD [])) =
      [false, true, false, true, false] :=
  ⟨by decide, classify_dense_top2 batchE 1 (by decide), by decide⟩

/-!  Claim C4: classification never raises.  Each `Except`-valued stage is
shown to succeed with exactly the pure stage's result, given that the
normalization loop has materialised the reasons list. -/

theorem heur1_isSome {s : CellSite} (hs : s.reasons.isSome = true) :
    (heur1 s).reasons.isSome = true := by
  unfold heur1; split
  · rfl
  · exact hs

theorem heur2_isSome {s : CellSite} (hs : s.reasons.isSome = true) :
    (heur2 s).reasons.isSome = true := by
  unfold heur2
  split
  · split
    · split
      · rfl
      · exact hs
    · exact hs
  · exact hs

theorem heur3_isSome {s : CellSite} (hs : s.reasons.isSome = true) :
    (heur3 s).reasons.isSome = true := by
  unfold heur3; split
  · rfl
  · exact hs

theorem heur4_isSome {s : CellSite} (hs : s.reasons.isSome = true) :
    (heur4 s).reasons.isSome = true := by
  unfold heur4; split
  · rfl
  · exact hs

theorem heur1E_ok {s : CellSite} (hs : s.reasons.isSome = true) :
    heur1E s = Except.ok (heur1 s) := by
  obtain ⟨l, hl⟩ := Option.isSome_iff_exists.mp hs
  unfold heur1E heur1
  split
  · rw [hl]; rfl
  · rfl

theorem heur2E_ok {s : CellSite} (hs : s.reasons.isSome = true) :
    heur2E s = Except.ok (heur2 s) := by
  obtain ⟨l, hl⟩ := Option.isSome_iff_exists.mp hs
  unfold heur2E heur2
  split
  · split
    · split
      · rw [hl]; rfl
      · rfl
    · rfl
  · rfl

theorem heur3E_ok {s : CellSite} (hs : s.reasons.isSome = true) :
    heur3E s = Except.ok (heur3 s) := by
  obtain ⟨l, hl⟩ := Option.isSome_iff_exists.mp hs
  unfold heur3E heur3
  by_cases hc : strongCond s = true
  · rw [if_pos hc, hl]
    by_cases hm : strongR ∈ l
    · rw [if_neg (fun hf : fire3 s => hf.2 (by rw [hl]; exact hm))]
      simp [pyMemE, hm]
    · rw [if_pos ⟨hc, by rw [hl]; exact hm⟩]
      simp [pyMemE, hm, pyAppendE, hl]
  · rw [if_neg hc, if_neg (fun hf : fire3 s => hc hf.1)]

theorem heur4E_ok {s : CellSite} (hs : s.reasons.isSome = true) :
    heur4E s = Except.ok (heur4 s) := by
  obtain ⟨l, hl⟩ := Option.isSome_iff_exists.mp hs
  unfold heur4E heur4
  by_cases hc : lowCond s = true
  · rw [if_pos hc, hl]
    by_cases hm : lowR ∈ l
    · rw [if_neg (fun hf : fire4 s => hf.2 (by rw [hl]; exact hm))]
      simp [pyMemE, hm]
    · rw [if_pos ⟨hc, by rw [hl]; exact hm⟩]
      simp [pyMemE, hm, pyAppendE, hl]
  · rw [if_neg hc, if_neg (fun hf : fire4 s => hc hf.1)]

theorem applyDenseE_ok {sites : List CellSite} {i : Nat}
    (hs : (sites.getD i site0).reasons.isSome = true) :
    applyDenseE sites i = Except.ok (applyDense sites i) := by
  obtain ⟨l, hl⟩ := Option.isSome_iff_exists.mp hs
  unfold applyDenseE applyDense
  dsimp only
  by_cases hc : gainsDense sites i
  · rw [if_pos hc, hl]
    by_cases hm : denseR ∈ l
    · rw [if_neg (fun hf : fireD sites i => hf.2 (by rw [hl]; exact hm))]
      simp [pyMemE, hm]
    · rw [if_pos ⟨hc, by rw [hl]; exact hm⟩]
      simp [pyMemE, hm, pyAppendE, hl]
  · rw [if_neg hc, if_neg (fun hf : fireD sites i => hc hf.1)]

theorem heurStageE_ok {s : CellSite} (hs : s.reasons.isSome = true) :
    heurStageE s = Except.ok (heurStage s) := by
  have hs1 : (heur1 s).reasons.isSome = true := heur1_isSome hs
  have hs2 : (heur2 (heur1 s)).reasons.isSome = true := heur2_isSome hs1
  have hs3 : (heur3 (heur2 (heur1 s))).reasons.isSome = true := heur3_isSome hs2
  unfold heurStageE heurStage
  simp only [heur1E_ok hs, heur2E_ok hs1, heur3E_ok hs2, heur4E_ok hs3]

theorem exceptMap_ok {α β : Type} (f : α → Except String β) (g : α → β) :
    ∀ (l : List α), (∀ a ∈ l, f a = .ok (g a)) → exceptMap f l = .ok (l.map g) := by
  intro l
  induction l with
  | nil => intro _; rfl
  | cons a t ih =>
    intro hall
    unfold exceptMap
    rw [hall a (List.mem_cons_self a t), ih (fun x hx => hall x (List.mem_cons_of_mem a hx))]
    rfl

/-- Claim C4 (confirmed): on any batch of well-shaped records (mandatory
latitude/longitude, every optional field either a typed value or absent),
`classify_sites` raises no exception: the `Except`-valued rendering — in which
the operations that raise in Python on an absent reasons list are fallible —
always returns `ok`, with exactly the pure classification's result. -/
theorem classify_sites_total (sites : List CellSite) :
    classify_sitesE sites = Except.ok (classify_sites sites) := by
  have h1 : exceptMap heurStageE (sites.map normStage) = .ok (classify_pass1 sites) := by
    refine exceptMap_ok heurStageE heurStage (sites.map normStage) ?_
    intro s hsm
    obtain ⟨t, _, rfl⟩ := List.mem_map.mp hsm
    exact heurStageE_ok (by rw [normStage_reasons]; rfl)
  have h2 : exceptMap (applyDenseE (classify_pass1 sites))
      (List.range (classify_pass1 sites).length) = .ok (classify_sites sites) := by
    refine exceptMap_ok (applyDenseE (classify_pass1 sites)) (applyDense (classify_pass1 sites))
      (List.range (classify_pass1 sites).length) ?_
    intro j hj
    have hjl : j < sites.length := by
      have := List.mem_range.mp hj
      rwa [classify_pass1_length] at this
    refine applyDenseE_ok ?_
    rw [pass1_getD sites j hjl]
    exact heur4_isSome (heur3_isSome (heur2_isSome (heur1_isSome
      (by rw [normStage_reasons]; rfl))))
  unfold classify_sitesE
  simp only [h1]
  exact h2

/-!  Claim C1: counting occurrences of each deduplicated reason across a
classification pass. -/

theorem count_ite_ne {c : Prop} [Decidable c] {x y : String} (hxy : y ≠ x) :
    List.count x (if c then [y] else []) = 0 := by
  split
  · rw [List.count_eq_zero]
    intro hmem
    exact hxy (List.mem_singleton.mp hmem).symm
  · rfl

theorem count_ite_self {c : Prop} [Decidable c] (x : String) :
    List.count x (if c then [x] else []) = if c then 1 else 0 := by
  split <;> simp

theorem count_mismatchApp_ne {x : String} (hx : x.data.take 4 ≠ ['M', 'C', 'C', '/'])
    (s : CellSite) : List.count x (mismatchApp s) = 0 := by
  rw [List.count_eq_zero]
  exact not_mem_mismatchApp hx

/-- One classification pass changes the number of strong-signal reasons on
record `i` by exactly the strong-signal firing condition evaluated on the
incoming record. -/
theorem classify_count_strong (sites : List CellSite) (i : Nat) (h : i < sites.length) :
    List.count strongR (((classify_sites sites).getD i site0).reasons.getD []) =
      List.count strongR ((sites.getD i site0).reasons.getD []) +
        (if strongCond (sites.getD i site0) = true ∧
            strongR ∉ (sites.getD i site0).reasons.getD [] then 1 else 0) := by
  rw [classify_getD sites i h, applyDense_reasons, pass1_getD sites i h]
  unfold heurStage
  rw [heur4_reasons, heur3_reasons, heur2_reasons, heur1_reasons, normStage_reasons]
  simp only [Option.getD_some]
  rw [List.count_append, List.count_append, List.count_append, List.count_append,
      List.count_append]
  rw [count_ite_ne (by decide), count_mismatchApp_ne (by decide), count_ite_self,
      count_ite_ne (by decide), count_ite_ne (by decide)]
  have hcond : fire3 (heur2 (heur1 (normStage (sites.getD i site0)))) ↔
      (strongCond (sites.getD i site0) = true ∧
        strongR ∉ (sites.getD i site0).reasons.getD []) := by
    unfold fire3
    constructor
    · rintro ⟨hc, hm⟩
      refine ⟨?_, ?_⟩
      · rw [← hc]
        exact (strongCond_congr ((heur2_frame _).trans ((heur1_frame _).trans
          (normStage_frame _)))).symm
      · intro hmem
        refine hm ?_
        rw [heur2_reasons, heur1_reasons, normStage_reasons]
        simp only [Option.getD_some]
        exact List.mem_append_left _ (List.mem_append_left _ hmem)
    · rintro ⟨hc, hm⟩
      refine ⟨?_, ?_⟩
      · rw [strongCond_congr ((heur2_frame _).trans ((heur1_frame _).trans
          (normStage_frame _)))]
        exact hc
      · rw [heur2_reasons, heur1_reasons, normStage_reasons]
        simp only [Option.getD_some]
        intro hmem
        rcases List.mem_append.mp hmem with hmm | hmm
        · rcases List.mem_append.mp hmm with hmm' | hmm'
          · exact hm hmm'
          · exact mem_ite_single (by decide) hmm'
        · exact not_mem_mismatchApp (by decide) hmm
  rw [if_congr hcond rfl rfl]
  omega

/-- One classification pass changes the number of low-codes reasons on record
`i` by exactly the low-codes firing condition evaluated on the incoming
record. -/
theorem classify_count_low (sites : List CellSite) (i : Nat) (h : i < sites.length) :
    List.count lowR (((classify_sites sites).getD i site0).reasons.getD []) =
      List.count lowR ((sites.getD i site0).reasons.getD []) +
        (if lowCond (sites.getD i site0) = true ∧
            lowR ∉ (sites.getD i site0).reasons.getD [] then 1 else 0) := by
  rw [classify_getD sites i h, applyDense_reasons, pass1_getD sites i h]
  unfold heurStage
  rw [heur4_reasons, heur3_reasons, heur2_reasons, heur1_reasons, normStage_reasons]
  simp only [Option.getD_some]
  rw [List.count_append, List.count_append, List.count_append, List.count_append,
      List.count_append]
  rw [count_ite_ne (by decide), count_mismatchApp_ne (by decide), count_ite_ne (by decide),
      count_ite_self, count_ite_ne (by decide)]
  have hcond : fire4 (heur3 (heur2 (heur1 (normStage (sites.getD i site0))))) ↔
      (lowCond (sites.getD i site0) = true ∧
        lowR ∉ (sites.getD i site0).reasons.getD []) := by
    unfold fire4
    constructor
    · rintro ⟨hc, hm⟩
      refine ⟨?_, ?_⟩
      · rw [← hc]
        exact (lowCond_congr ((heur3_frame _).trans ((heur2_frame _).trans ((heur1_frame _).trans
          (normStage_frame _))))).symm
      · intro hmem
        refine hm ?_
        rw [heur3_reasons, heur2_reasons, heur1_reasons, normStage_reasons]
        simp only [Option.getD_some]
        exact List.mem_append_left _ (List.mem_append_left _ (List.mem_append_left _ hmem))
    · rintro ⟨hc, hm⟩
      refine ⟨?_, ?_⟩
      · rw [lowCond_congr ((heur3_frame _).trans ((heur2_frame _).trans ((heur1_frame _).trans
          (normStage_frame _))))]
        exact hc
      · rw [heur3_reasons, heur2_reasons, heur1_reasons, normStage_reasons]
        simp only [Option.getD_some]
        intro hmem
        rcases List.mem_append.mp hmem with hmm | hmm
        · rcases List.mem_append.mp hmm with hmm' | hmm'
          · rcases List.mem_append.mp hmm' with hmm'' | hmm''
            · exact hm hmm''
            · exact mem_ite_single (by decide) hmm''
          · exact not_mem_mismatchApp (by decide) hmm'
        · exact mem_ite_single (by decide) hmm
  rw [if_congr hcond rfl rfl]
  omega

/-- One classification pass changes the number of dense-cluster reasons on
record `i` by exactly the density firing condition: a top-2 bucket position
(computed over pass 1's output, whose keys and sort values equal the incoming
batch's) and no dense reason already present. -/
theorem classify_count_dense (sites : List CellSite) (i : Nat) (h : i < sites.length) :
    List.count denseR (((classify_sites sites).getD i site0).reasons.getD []) =
      List.count denseR ((sites.getD i site0).reasons.getD []) +
        (if gainsDense (classify_pass1 sites) i ∧
            denseR ∉ (sites.getD i site0).reasons.getD [] then 1 else 0) := by
  rw [classify_getD sites i h, applyDense_reasons]
  rw [List.count_append]
  have hmemiff : denseR ∈ ((classify_pass1 sites).getD i site0).reasons.getD [] ↔
      denseR ∈ (sites.getD i site0).reasons.getD [] := by
    rw [pass1_getD sites i h]
    unfold heurStage
    rw [heur4_reasons, heur3_reasons, heur2_reasons, heur1_reasons, normStage_reasons]
    simp only [Option.getD_some]
    constructor
    · intro hmem
      rcases List.mem_append.mp hmem with hmm | hmm
      · rcases List.mem_append.mp hmm with hmm' | hmm'
        · rcases List.mem_append.mp hmm' with hmm'' | hmm''
          · rcases List.mem_append.mp hmm'' with hm3 | hm3
            · exact hm3
            · exact absurd hm3 (mem_ite_single (by decide))
          · exact absurd hmm'' (not_mem_mismatchApp (by decide))
        · exact absurd hmm' (mem_ite_single (by decide))
      · exact absurd hmm (mem_ite_single (by decide))
    · intro hmem
      exact List.mem_append_left _ (List.mem_append_left _ (List.mem_append_left _
        (List.mem_append_left _ hmem)))
  have hcount1 : List.count denseR (((classify_pass1 sites).getD i site0).reasons.getD []) =
      List.count denseR ((sites.getD i site0).reasons.getD []) := by
    rw [pass1_getD sites i h]
    unfold heurStage
    rw [heur4_reasons, heur3_reasons, heur2_reasons, heur1_reasons, normStage_reasons]
    simp only [Option.getD_some]
    rw [List.count_append, List.count_append, List.count_append, List.count_append]
    rw [count_ite_ne (by decide), count_mismatchApp_ne (by decide), count_ite_ne (by decide),
        count_ite_ne (by decide)]
    omega
  rw [hcount1, count_ite_self]
  have hcond : fireD (classify_pass1 sites) i ↔
      (gainsDense (classify_pass1 sites) i ∧
        denseR ∉ (sites.getD i site0).reasons.getD []) := by
    unfold fireD
    rw [hmemiff]
  rw [if_congr hcond rfl rfl]

/-!  The density ordering data (grid keys and sort values) is untouched by a
classification pass, so re-classifying ranks records identically. -/

theorem map_congr_classify {γ : Type} (f : CellSite → γ)
    (hf : ∀ a b, classFrame a b → f a = f b) (sites : List CellSite) :
    (classify_sites sites).map f = sites.map f := by
  refine List.ext_getElem (by simp [classify_length]) ?_
  intro n h1 h2
  rw [List.getElem_map, List.getElem_map]
  rw [← List.getD_eq_getElem (classify_sites sites) site0, ← List.getD_eq_getElem sites site0]
  exact hf _ _ (classify_frame_getD sites n (by simpa using h2))

theorem map_congr_pass1 {γ : Type} (f : CellSite → γ)
    (hf : ∀ a b, classFrame a b → f a = f b) (sites : List CellSite) :
    (classify_pass1 sites).map f = sites.map f := by
  unfold classify_pass1
  rw [List.map_map, List.map_map]
  refine List.map_congr_left ?_
  intro s _
  exact hf _ _ ((heurStage_frame _).trans (normStage_frame _))

theorem gainsDense_congr {xs ys : List CellSite}
    (hk : keyList xs = keyList ys) (hv : valList xs = valList ys) (i : Nat) :
    gainsDense xs i ↔ gainsDense ys i := by
  unfold gainsDense top2K
  rw [hk, hv]

/-- Re-classifying ranks each record exactly as the first pass did. -/
theorem gainsDense_reclassify (sites : List CellSite) (i : Nat) :
    gainsDense (classify_pass1 (classify_sites sites)) i ↔
      gainsDense (classify_pass1 sites) i := by
  refine gainsDense_congr ?_ ?_ i
  · show (classify_pass1 (classify_sites sites)).map bucketKey =
      (classify_pass1 sites).map bucketKey
    rw [map_congr_pass1 bucketKey (fun a b hab => bucketKey_congr hab),
        map_congr_pass1 bucketKey (fun a b hab => bucketKey_congr hab),
        map_congr_classify bucketKey (fun a b hab => bucketKey_congr hab)]
  · show (classify_pass1 (classify_sites sites)).map sortVal =
      (classify_pass1 sites).map sortVal
    rw [map_congr_pass1 sortVal (fun a b hab => sortVal_congr hab),
        map_congr_pass1 sortVal (fun a b hab => sortVal_congr hab),
        map_congr_classify sortVal (fun a b hab => sortVal_congr hab)]

/-- Claim C1 counterexample: classifying an already-classified batch is not
byte-identical — the missing-identity heuristic has no duplicate check, so its
reason string is appended a second time. -/
theorem classify_not_idempotent :
    classify_sites (classify_sites [recNoId]) ≠ classify_sites [recNoId] ∧
    (classify_sites [recNoId]).map (fun s => s.reasons.getD []) = [[missingR]] ∧
    (classify_sites (classify_sites [recNoId])).map (fun s => s.reasons.getD []) =
      [[missingR, missingR]] := by decide

/-- Claim C1 (amended): re-classifying an already-classified batch never
clears a suspicion flag, and never duplicates the strong-signal, low-codes or
dense-cluster reasons (the categories with a duplicate check); it is not
byte-identical in general, because the missing-identity and operator-mismatch
reasons, which have no duplicate check, are appended again when their
conditions still hold. -/
theorem classify_reclassify_stable (sites : List CellSite) (i : Nat) (h : i < sites.length) :
    (((classify_sites sites).getD i site0).suspected_simulator = true →
      ((classify_sites (classify_sites sites)).getD i site0).suspected_simulator = true) ∧
    List.count strongR
        (((classify_sites (classify_sites sites)).getD i site0).reasons.getD []) =
      List.count strongR (((classify_sites sites).getD i site0).reasons.getD []) ∧
    List.count lowR
        (((classify_sites (classify_sites sites)).getD i site0).reasons.getD []) =
      List.count lowR (((classify_sites sites).getD i site0).reasons.getD []) ∧
    List.count denseR
        (((classify_sites (classify_sites sites)).getD i site0).reasons.getD []) =
      List.count denseR (((classify_sites sites).getD i site0).reasons.getD []) := by
  have h1 : i < (classify_sites sites).length := by rw [classify_length]; exact h
  refine ⟨classify_flag_mono (classify_sites sites) i h1, ?_, ?_, ?_⟩
  · rw [classify_count_strong (classify_sites sites) i h1]
    by_cases hmem : strongR ∈ ((classify_sites sites).getD i site0).reasons.getD []
    · rw [if_neg (fun hand => hand.2 hmem)]
      omega
    · have hns : strongR ∉ (sites.getD i site0).reasons.getD [] :=
        fun hx => hmem (classify_mem_mono sites i h _ hx)
      have hc0 : List.count strongR (((classify_sites sites).getD i site0).reasons.getD []) = 0 :=
        List.count_eq_zero.mpr hmem
      have heq := classify_count_strong sites i h
      rw [hc0] at heq
      have hcond : ¬ (strongCond (sites.getD i site0) = true ∧
          strongR ∉ (sites.getD i site0).reasons.getD []) := by
        intro hand
        rw [if_pos hand] at heq
        omega
      have hsc : strongCond (sites.getD i site0) = false := by
        rcases Bool.eq_false_or_eq_true (strongCond (sites.getD i site0)) with hb | hb
        · exact absurd ⟨hb, hns⟩ hcond
        · exact hb
      have hneg : ¬ (strongCond ((classify_sites sites).getD i site0) = true ∧
          strongR ∉ ((classify_sites sites).getD i site0).reasons.getD []) := by
        intro hand
        rw [strongCond_congr (classify_frame_getD sites i h), hsc] at hand
        exact Bool.false_ne_true hand.1
      rw [if_neg hneg]
      omega
  · rw [classify_count_low (classify_sites sites) i h1]
    by_cases hmem : lowR ∈ ((classify_sites sites).getD i site0).reasons.getD []
    · rw [if_neg (fun hand => hand.2 hmem)]
      omega
    · have hns : lowR ∉ (sites.getD i site0).reasons.getD [] :=
        fun hx => hmem (classify_mem_mono sites i h _ hx)
      have hc0 : List.count lowR (((classify_sites sites).getD i site0).reasons.getD []) = 0 :=
        List.count_eq_zero.mpr hmem
      have heq := classify_count_low sites i h
      rw [hc0] at heq
      have hcond : ¬ (lowCond (sites.getD i site0) = true ∧
          lowR ∉ (sites.getD i site0).reasons.getD []) := by
        intro hand
        rw [if_pos hand] at heq
        omega
      have hsc : lowCond (sites.getD i site0) = false := by
        rcases Bool.eq_false_or_eq_true (lowCond (sites.getD i site0)) with hb | hb
        · exact absurd ⟨hb, hns⟩ hcond
        · exact hb
      have hneg : ¬ (lowCond ((classify_sites sites).getD i site0) = true ∧
          lowR ∉ ((classify_sites sites).getD i site0).reasons.getD []) := by
        intro hand
        rw [lowCond_congr (classify_frame_getD sites i h), hsc] at hand
        exact Bool.false_ne_true hand.1
      rw [if_neg hneg]
      omega
  · rw [classify_count_dense (classify_sites sites) i h1]
    by_cases hmem : denseR ∈ ((classify_sites sites).getD i site0).reasons.getD []
    · rw [if_neg (fun hand => hand.2 hmem)]
      omega
    · have hns : denseR ∉ (sites.getD i site0).reasons.getD [] :=
        fun hx => hmem (classify_mem_mono sites i h _ hx)
      have hc0 : List.count denseR (((classify_sites sites).getD i site0).reasons.getD []) = 0 :=
        List.count_eq_zero.mpr hmem
      have heq := classify_count_dense sites i h
      rw [hc0] at heq
      have hcond : ¬ (gainsDense (classify_pass1 sites) i ∧
          denseR ∉ (sites.getD i site0).reasons.getD []) := by
        intro hand
        rw [if_pos hand] at heq
        omega
      have hneg : ¬ (gainsDense (classify_pass1 (classify_sites sites)) i ∧
          denseR ∉ ((classify_sites sites).getD i site0).reasons.getD []) := by
        intro hand
        rw [gainsDense_reclassify sites i] at hand
        exact hcond ⟨hand.1, hns⟩
      rw [if_neg hneg]
      omega

theorem classify_reclassify_stable_witness :
    0 < ([recD0] : List CellSite).length ∧
    (((classify_sites [recD0]).getD 0 site0).suspected_simulator = true →
      ((classify_sites (classify_sites [recD0])).getD 0 site0).suspected_simulator = true) ∧
    List.count lowR
        (((classify_sites (classify_sites [recD0])).getD 0 site0).reasons.getD []) =
      List.count lowR (((classify_sites [recD0]).getD 0 site0).reasons.getD []) :=
  ⟨by decide, (classify_reclassify_stable [recD0] 0 (by decide)).1,
    (classify_reclassify_stable [recD0] 0 (by decide)).2.2.1⟩
